import Mathlib

/-!
A shallow embedding of the tv-shows-viewers scraping pipeline
(`tv-shows-viewers.py`): page-table extraction, per-season dataframe
building, show aggregation with per-season failure recovery, column
cleaning with typed coercions, and grouped viewership statistics.

Pages fetched by the browser are modelled by an environment function from a
URL to either a fetch failure or the list of HTML tables of the rendered
page, each table a list of rows, each row a list of raw cell texts.
Dataframe cells are nullable values (`none` models NaN); numeric text is
coerced to exact rationals standing for Python floats.
-/

/-- A raw value held in a dataframe cell before cleaning: scraped cell
texts are strings, the season tag appended by the extractor is an
integer. -/
inductive RVal where
  | vStr (s : String)
  | vInt (n : Int)
deriving DecidableEq

/-- A nullable dataframe cell; `none` models NaN. -/
abbrev Cell := Option RVal

/-- One raw episode row with the column layout fixed at line 84 of the
source: Overall number, No in Season, Title, Directed by, Written by,
Original air date, US viewers (millions), Season, Show. -/
structure Record where
  overallNumber : Cell
  noInSeason : Cell
  title : Cell
  directedBy : Cell
  writtenBy : Cell
  originalAirDate : Cell
  usViewers : Cell
  season : Cell
  showId : Cell
deriving DecidableEq

/-- The browser environment: maps a URL to the tables of the fetched page,
or to a raised fetch error (network or automation failure). -/
abbrev Env := String → Except String (List (List (List String)))

/-- Python str.strip: drop whitespace from both ends of a character
list. -/
def pyStrip (l : List Char) : List Char :=
  ((l.dropWhile Char.isWhitespace).reverse.dropWhile Char.isWhitespace).reverse

/-- Python str.strip on a string. -/
def pyStripStr (s : String) : String := String.mk (pyStrip s.data)

/-- The episode-list URL built at line 29 of the source. -/
def wikiUrl (showId : String) : String :=
  "https://en.wikipedia.org/wiki/List_of_" ++ showId ++ "_episodes"

/-- The row-loop body of lines 36-41: strip every cell text, keep the
non-empty ones, drop the row if none remain, otherwise append the season
index and then the show identifier. -/
def extractRowPy (showId : String) (season : Nat) (row : List String) :
    Option (List RVal) :=
  let row_data := (row.map pyStripStr).filter (fun c => ¬ c = "")
  if row_data.isEmpty then none
  else some (row_data.map RVal.vStr ++ [RVal.vInt (season : Int), RVal.vStr showId])

/-- get_tv_show_viewers (lines 26-44): fetch the page for the show, select
the table at index `season` among all tables of the page (an index out of
range raises, as does a failed fetch), and fold the row loop over the rows
of that table. -/
def get_tv_show_viewers (env : Env) (showId : String) (season : Nat) :
    Except String (List (List RVal)) :=
  match env (wikiUrl showId) with
  | .error e => .error e
  | .ok tables =>
    match tables[season]? with
    | none => .error "list index out of range"
    | some season_table =>
      .ok (season_table.foldl (fun results row =>
        match extractRowPy showId season row with
        | none => results
        | some row_data => results ++ [row_data]) [])

/-- Positional assignment of one row to the nine columns of line 89, any
missing trailing columns padded with NaN; only applied to rows of a frame
whose inferred width is nine. -/
def toRecord (vals : List RVal) : Record :=
  { overallNumber := vals[0]?, noInSeason := vals[1]?, title := vals[2]?,
    directedBy := vals[3]?, writtenBy := vals[4]?, originalAirDate := vals[5]?,
    usViewers := vals[6]?, season := vals[7]?, showId := vals[8]? }

/-- The width pandas infers for a list-of-rows frame: the longest row. -/
def rowWidthMax (rows : List (List RVal)) : Nat :=
  rows.foldl (fun a r => max a r.length) 0

/-- pd.DataFrame(rows, columns=nine-names): an empty row list gives an
empty frame; otherwise construction raises unless the inferred width is
exactly the nine named columns, and rows shorter than that width are
padded with NaN on the trailing columns. -/
def pdDataFrame (rows : List (List RVal)) : Except String (List Record) :=
  if rows.isEmpty then .ok []
  else if rowWidthMax rows = 9 then .ok (rows.map toRecord)
  else .error ("9 columns passed, passed data had " ++
    toString (rowWidthMax rows) ++ " columns")

/-- Elementwise fallible map over a column or row list, raising the first
error encountered (the shared error discipline of pandas elementwise
conversions). -/
def mapE (f : α → Except String β) : List α → Except String (List β)
  | [] => .ok []
  | x :: xs =>
    match f x with
    | .error e => .error e
    | .ok y =>
      match mapE f xs with
      | .error e => .error e
      | .ok ys => .ok (y :: ys)

/-- The body of the per-season try block (lines 88-89): run the extractor,
then build the season dataframe from all extracted rows but the first (the
header row). -/
def seasonAttempt (env : Env) (showId : String) (season : Nat) :
    Except String (List Record) :=
  match get_tv_show_viewers env showId season with
  | .error e => .error e
  | .ok results => pdDataFrame (results.drop 1)

/-- scrape_show_data (lines 61-95): accumulate the configured seasons in
order; after a successful season the concatenated frame is filtered to the
rows whose Original air date is not null; a season whose attempt raised is
skipped and the accumulator is kept unchanged. -/
def scrape_show_data (env : Env) (showId : String) (seasons : List Nat) :
    List Record :=
  seasons.foldl (fun df season =>
    match seasonAttempt env showId season with
    | .error _ => df
    | .ok df1 => (df ++ df1).filter (fun r => r.originalAirDate.isSome)) []

/-- The per-season contribution described by the spec: nothing when the
season attempt raised, otherwise the air-dated rows of that season. -/
def seasonContributionSpec (env : Env) (showId : String) (season : Nat) :
    List Record :=
  match seasonAttempt env showId season with
  | .error _ => []
  | .ok rs => rs.filter (fun r => r.originalAirDate.isSome)

/-- Scan helper for the non-greedy citation pattern of line 118: from the
characters following an opening bracket, the remainder after the first
closing bracket, provided no newline intervenes (the dot of the pattern
does not cross newlines); `none` when the pattern cannot match here. -/
def dropBracket : List Char → Option (List Char)
  | [] => none
  | c :: r =>
    if c = ']' then some r
    else if c = '\n' then none
    else dropBracket r

/-- Fuel-indexed scan of re.sub with the non-greedy bracket pattern: each
minimal bracketed run not spanning a newline is removed; an unmatched
opening bracket is kept and scanning resumes at the next character. The
fuel always exceeds the list length at every call, so the fuel-exhausted
branch is never taken. -/
def stripBracketsAux : Nat → List Char → List Char
  | 0, l => l
  | _ + 1, [] => []
  | fuel + 1, c :: rest =>
    if c = '[' then
      match dropBracket rest with
      | some r => stripBracketsAux fuel r
      | none => c :: stripBracketsAux fuel rest
    else c :: stripBracketsAux fuel rest

/-- Line 118 text substitution: remove every bracketed citation marker. -/
def stripBracketsStr (s : String) : String :=
  String.mk (stripBracketsAux (s.data.length + 1) s.data)

/-- Numeric value of a digit run. -/
def digitsVal (ds : List Char) : Nat :=
  ds.foldl (fun a c => a * 10 + (c.toNat - 48)) 0

/-- A non-empty all-digit run, or nothing. -/
def parseDigitsAll (l : List Char) : Option Nat :=
  if ¬ l.isEmpty ∧ l.all Char.isDigit then some (digitsVal l) else none

/-- An optionally signed non-empty digit run, as an integer. -/
def parseSignedDigits (l : List Char) : Option Int :=
  match l with
  | [] => none
  | c :: r =>
    if c = '+' then (parseDigitsAll r).map (fun n => (n : Int))
    else if c = '-' then (parseDigitsAll r).map (fun n => -(n : Int))
    else (parseDigitsAll (c :: r)).map (fun n => (n : Int))

/-- The optional exponent suffix of a float literal: empty means exponent
zero, an e or E must be followed by a signed digit run, anything else fails
the parse. -/
def parseExpPart (l : List Char) : Option Int :=
  match l with
  | [] => some 0
  | c :: r =>
    if c = 'e' then parseSignedDigits r
    else if c = 'E' then parseSignedDigits r
    else none

/-- Scale an exact numerator/denominator pair by a power of ten. -/
def applyExp (num den : Nat) (e : Int) : Nat × Nat :=
  if 0 ≤ e then (num * 10 ^ e.toNat, den) else (num, den * 10 ^ (-e).toNat)

/-- The unsigned part of a Python float literal, as an exact
numerator/denominator pair: digits with an optional single point and an
optional exponent; at least one digit must be present around the point. -/
def parseFloatParts (l : List Char) : Option (Nat × Nat) :=
  let ip := l.takeWhile Char.isDigit
  let rest := l.dropWhile Char.isDigit
  match rest with
  | c :: r2 =>
    if c = '.' then
      let fp := r2.takeWhile Char.isDigit
      let rest2 := r2.dropWhile Char.isDigit
      if ip.isEmpty ∧ fp.isEmpty then none
      else
        match parseExpPart rest2 with
        | none => none
        | some e => some (applyExp (digitsVal ip * 10 ^ fp.length + digitsVal fp) (10 ^ fp.length) e)
    else
      if ip.isEmpty then none
      else
        match parseExpPart rest with
        | none => none
        | some e => some (applyExp (digitsVal ip) 1 e)
  | [] =>
    if ip.isEmpty then none
    else
      match parseExpPart rest with
      | none => none
      | some e => some (applyExp (digitsVal ip) 1 e)

/-- A signed Python float literal as an exact rational. -/
def parseSignedFloat : List Char → Option ℚ
  | [] => none
  | c :: r =>
    if c = '+' then (parseFloatParts r).map (fun p => mkRat p.1 p.2)
    else if c = '-' then (parseFloatParts r).map (fun p => mkRat (-(p.1 : Int)) p.2)
    else (parseFloatParts (c :: r)).map (fun p => mkRat p.1 p.2)

/-- Python float() on a string: strip whitespace, then parse a signed
decimal literal; unparseable text raises. Finite decimal literals are
modelled exactly as rationals. -/
def parseFloat (s : String) : Except String ℚ :=
  match parseSignedFloat (pyStrip s.data) with
  | some q => .ok q
  | none => .error ("could not convert string to float: " ++ s)

/-- Python int() on a string: strip whitespace, then parse a signed digit
run; anything else raises. -/
def parseIntPy (s : String) : Except String Int :=
  match parseSignedDigits (pyStrip s.data) with
  | some n => .ok n
  | none => .error ("invalid literal for int with base 10: " ++ s)

/-- A cleaned datetime value: either a calendar date parsed from an ISO
string, or an epoch-nanosecond timestamp obtained from an integer
input. -/
inductive DateVal where
  | ymd (y m d : Nat)
  | epochNanos (n : Int)
deriving DecidableEq

/-- Split a character list on the dash character. -/
def splitOnDash : List Char → List (List Char)
  | [] => [[]]
  | c :: r =>
    match splitOnDash r with
    | [] => [[c]]
    | cur :: rest => if c = '-' then [] :: cur :: rest else (c :: cur) :: rest

/-- Modelled fragment of the pandas datetime string parser: ISO
year-month-day strings parse to a calendar date; other strings are parse
failures. -/
def parseDate (s : String) : Except String DateVal :=
  match splitOnDash s.data with
  | [ys, ms, ds] =>
    match parseDigitsAll ys, parseDigitsAll ms, parseDigitsAll ds with
    | some y, some m, some d =>
      if 1 ≤ m ∧ m ≤ 12 ∧ 1 ≤ d ∧ d ≤ 31 then .ok (DateVal.ymd y m d)
      else .error ("could not parse date " ++ s)
    | _, _, _ => .error ("could not parse date " ++ s)
  | _ => .error ("could not parse date " ++ s)

/-- Series.astype(int) elementwise: a null raises, an integer passes
through, a string goes through int(). -/
def astypeInt : Cell → Except String Int
  | none => .error "Cannot convert non-finite values to integer"
  | some (.vInt n) => .ok n
  | some (.vStr s) => parseIntPy s

/-- Series.astype(float) elementwise: a null stays null, an integer widens,
a string goes through float(). -/
def astypeFloat : Cell → Except String (Option ℚ)
  | none => .ok none
  | some (.vInt n) => .ok (some (mkRat n 1))
  | some (.vStr s) =>
    match parseFloat s with
    | .error e => .error e
    | .ok q => .ok (some q)

/-- The pandas NaT sentinel strings: to_datetime converts these to NaT
without raising, even under its default raise-on-error mode. -/
def natStrings : List String := ["NaT", "nat", "NAT", "nan", "NaN", "NAN"]

/-- Whether a raw air-date cell holds one of the pandas NaT sentinel
strings. -/
def natAirDateSentinel : Cell → Bool
  | some (.vStr s) => decide (s ∈ natStrings)
  | _ => false

/-- pd.to_datetime elementwise: a null stays null, an integer is an
epoch-nanosecond timestamp, a NaT sentinel string becomes NaT without
raising, and any other string must parse as a date or the call raises. -/
def to_datetime : Cell → Except String (Option DateVal)
  | none => .ok none
  | some (.vInt n) => .ok (some (DateVal.epochNanos n))
  | some (.vStr s) =>
    if s ∈ natStrings then .ok none
    else
      match parseDate s with
      | .error e => .error e
      | .ok d => .ok (some d)

/-- Line 118 elementwise: .str.replace of the citation pattern; under the
.str accessor a non-string value becomes NaN. -/
def bracketReplaceCell : Cell → Cell
  | some (.vStr s) => some (.vStr (stripBracketsStr s))
  | _ => none

/-- Line 119 elementwise: .str.replace of underscores by spaces on the Show
column; a non-string value becomes NaN. -/
def underscoreReplaceCell : Cell → Cell
  | some (.vStr s) =>
    some (.vStr (String.mk (s.data.map (fun c => if c = '_' then ' ' else c))))
  | _ => none

/-- Line 120 elementwise: Series.replace of the exact value "N/A" by NaN;
all other values pass through. -/
def naReplaceCell : Cell → Cell
  | some (.vStr s) => if s = "N/A" then none else some (.vStr s)
  | c => c

/-- Line 118 applied to a record. -/
def step118 (r : Record) : Record :=
  { r with usViewers := bracketReplaceCell r.usViewers }

/-- Line 119 applied to a record. -/
def step119 (r : Record) : Record :=
  { r with showId := underscoreReplaceCell r.showId }

/-- Line 120 applied to a record. -/
def step120 (r : Record) : Record :=
  { r with usViewers := naReplaceCell r.usViewers }

/-- Lines 118-120 applied to the whole frame in source order. -/
def cleanSteps (df : List Record) : List Record :=
  ((df.map step118).map step119).map step120

/-- The viewership-field transform of the Cleaner: strip bracketed citation
markers (line 118), replace the literal "N/A" by null (line 120), coerce to
float (line 124). -/
def viewersTransform (c : Cell) : Except String (Option ℚ) :=
  astypeFloat (naReplaceCell (bracketReplaceCell c))

/-- A fully cleaned episode record, fields in the canonical column order
fixed at line 117. -/
structure CleanRecord where
  showId : Option String
  overallNumber : Int
  season : Int
  noInSeason : Int
  title : Cell
  directedBy : Cell
  writtenBy : Cell
  originalAirDate : Option DateVal
  usViewers : Option ℚ
deriving DecidableEq

/-- The string content of a cell, if any. -/
def optStrOf : Cell → Option String
  | some (.vStr s) => some s
  | _ => none

/-- The typed coercions of lines 121-125 assembled into one cleaned record;
the input record is expected to have the pure steps of lines 118-120
already applied. -/
def cleanRecordTyped (r : Record) : Except String CleanRecord :=
  match astypeInt r.overallNumber with
  | .error e => .error e
  | .ok ov =>
    match astypeInt r.season with
    | .error e => .error e
    | .ok se =>
      match astypeInt r.noInSeason with
      | .error e => .error e
      | .ok ns =>
        match astypeFloat r.usViewers with
        | .error e => .error e
        | .ok uv =>
          match to_datetime r.originalAirDate with
          | .error e => .error e
          | .ok ad =>
            .ok { showId := optStrOf r.showId, overallNumber := ov, season := se,
                  noInSeason := ns, title := r.title, directedBy := r.directedBy,
                  writtenBy := r.writtenBy, originalAirDate := ad, usViewers := uv }

/-- clean_and_save_data (lines 97-129): the pure column transforms of lines
118-120, then the fallible column coercions in source order, so that the
first failing column raises exactly as in the source; when every column
coerces, the typed records are assembled. The CSV write of line 127 is the
returned table. -/
def clean_and_save_data (df : List Record) : Except String (List CleanRecord) :=
  match mapE (fun r => astypeInt r.overallNumber) (cleanSteps df) with
  | .error e => .error e
  | .ok _ =>
    match mapE (fun r => astypeInt r.season) (cleanSteps df) with
    | .error e => .error e
    | .ok _ =>
      match mapE (fun r => astypeInt r.noInSeason) (cleanSteps df) with
      | .error e => .error e
      | .ok _ =>
        match mapE (fun r => astypeFloat r.usViewers) (cleanSteps df) with
        | .error e => .error e
        | .ok _ =>
          match mapE (fun r => to_datetime r.originalAirDate) (cleanSteps df) with
          | .error e => .error e
          | .ok _ => mapE cleanRecordTyped (cleanSteps df)

/-- A serialized CSV cell of the canonical table. -/
inductive CVal where
  | nullV
  | strV (s : String)
  | intV (n : Int)
  | ratV (q : ℚ)
  | dateV (d : DateVal)
deriving DecidableEq

/-- Serialize an untouched text cell. -/
def cellToCVal : Cell → CVal
  | none => .nullV
  | some (.vStr s) => .strV s
  | some (.vInt n) => .intV n

/-- The canonical header written at line 117 and serialized at line 127. -/
def canonicalColumns : List String :=
  ["Show", "Overall number", "Season", "No in Season", "Title", "Directed by",
   "Written by", "Original air date", "US viewers (millions)"]

/-- One CSV row of the canonical table, cells in canonical column order. -/
def cleanRow (c : CleanRecord) : List CVal :=
  [(match c.showId with | none => CVal.nullV | some s => CVal.strV s),
   CVal.intV c.overallNumber, CVal.intV c.season, CVal.intV c.noInSeason,
   cellToCVal c.title, cellToCVal c.directedBy, cellToCVal c.writtenBy,
   (match c.originalAirDate with | none => CVal.nullV | some d => CVal.dateV d),
   (match c.usViewers with | none => CVal.nullV | some q => CVal.ratV q)]

/-- The canonical CSV artifact: header row then one row per record, written
with to_csv(index=False) at line 127. -/
def canonicalCsv (out : List CleanRecord) : List String × List (List CVal) :=
  (canonicalColumns, out.map cleanRow)

/-- Insert into a list sorted by the given comparison. -/
def insertSorted (le : κ → κ → Bool) (x : κ) : List κ → List κ
  | [] => [x]
  | y :: ys => if le x y then x :: y :: ys else y :: insertSorted le x ys

/-- Insertion sort by the given comparison (the ascending key order that
groupby gives its output index). -/
def sortKeys (le : κ → κ → Bool) : List κ → List κ
  | [] => []
  | x :: xs => insertSorted le x (sortKeys le xs)

/-- Ascending string order. -/
def strLeB (a b : String) : Bool := decide (a ≤ b)

/-- Ascending lexicographic order on show/season pairs. -/
def showSeasonLeB (a b : String × Int) : Bool :=
  decide (a.1 < b.1 ∨ (a.1 = b.1 ∧ a.2 ≤ b.2))

/-- Rational sum of a value list. -/
def sumQ (vs : List ℚ) : ℚ := vs.foldl (fun a q => a + q) (mkRat 0 1)

/-- The grouped mean statistic: NaN entries were dropped before the call;
an all-NaN group has no entries and yields NaN. -/
def meanAgg (vs : List ℚ) : Option ℚ :=
  match vs with
  | [] => none
  | _ => some (sumQ vs / mkRat vs.length 1)

/-- The grouped max statistic over the non-null entries. -/
def maxAgg (vs : List ℚ) : Option ℚ :=
  match vs with
  | [] => none
  | v :: rest => some (rest.foldl (fun a q => if a ≤ q then q else a) v)

/-- The grouped min statistic over the non-null entries. -/
def minAgg (vs : List ℚ) : Option ℚ :=
  match vs with
  | [] => none
  | v :: rest => some (rest.foldl (fun a q => if q ≤ a then q else a) v)

/-- df.groupby(key)[viewers-column].agg: rows with a null key are excluded,
the output is indexed by the de-duplicated keys in ascending order, and the
statistic of a group is computed over that group's non-null viewership
values. -/
def groupTable [DecidableEq κ] (keyOf : CleanRecord → Option κ)
    (le : κ → κ → Bool) (agg : List ℚ → Option ℚ) (df : List CleanRecord) :
    List (κ × Option ℚ) :=
  (sortKeys le ((df.filterMap keyOf).dedup)).map (fun k =>
    (k, agg ((df.filter (fun r => decide (keyOf r = some k))).filterMap
      (fun r => r.usViewers))))

/-- save_aggregated_data (lines 131-154): the four aggregate CSV artifacts,
in source order: mean by show, mean by show and season, max by show, min by
show. -/
def save_aggregated_data (df : List CleanRecord) :
    List (String × Option ℚ) × List ((String × Int) × Option ℚ) ×
    List (String × Option ℚ) × List (String × Option ℚ) :=
  (groupTable (fun r => r.showId) strLeB meanAgg df,
   groupTable (fun r => r.showId.map (fun s => (s, r.season))) showSeasonLeB meanAgg df,
   groupTable (fun r => r.showId) strLeB maxAgg df,
   groupTable (fun r => r.showId) strLeB minAgg df)

/-- The hard-coded show configuration of main (lines 243-247). -/
def mainShows : List (String × List Nat) :=
  [("The_Sopranos", [1, 2, 3, 4, 5, 6]),
   ("Game_of_Thrones", [1, 2, 3, 4, 5, 6, 7, 8]),
   ("Breaking_Bad", [1, 2, 3, 4, 5])]

/-- The concatenation of every configured show scrape (lines 249-252). -/
def mainScraped (env : Env) : List Record :=
  (mainShows.map (fun p => scrape_show_data env p.1 p.2)).flatten

/-- The data part of main after scraping (lines 254-255): clean and write
the canonical table, then write the aggregates; nothing catches an error
raised here, so it propagates out of main. -/
def main_pipeline (env : Env) :
    Except String (List CleanRecord ×
      (List (String × Option ℚ) × List ((String × Int) × Option ℚ) ×
       List (String × Option ℚ) × List (String × Option ℚ))) :=
  match clean_and_save_data (mainScraped env) with
  | .error e => .error e
  | .ok df => .ok (df, save_aggregated_data df)

/-- Whether a fallible computation raised. -/
def isErr : Except String α → Bool
  | .error _ => true
  | .ok _ => false

/-- The raw cell holds no minus sign: a vacuous condition for a null, the
absence of the minus character for scraped text, non-negativity for the
appended integer tag. -/
def noMinusCell : Cell → Bool
  | none => true
  | some (.vStr s) => decide (¬ '-' ∈ s.data)
  | some (.vInt n) => decide (0 ≤ n)

instance {ε α : Type} [DecidableEq ε] [DecidableEq α] : DecidableEq (Except ε α) :=
  fun a b =>
  match a, b with
  | .error x, .error y =>
    if h : x = y then .isTrue (by rw [h]) else .isFalse (fun c => by cases c; exact h rfl)
  | .ok x, .ok y =>
    if h : x = y then .isTrue (by rw [h]) else .isFalse (fun c => by cases c; exact h rfl)
  | .error _, .ok _ => .isFalse (fun c => by cases c)
  | .ok _, .error _ => .isFalse (fun c => by cases c)

/-- A season table of a well-formed episode-list page: a header row and one
complete episode row of seven cells. -/
def goodTable : List (List String) :=
  [["No. overall", "No. in season", "Title", "Directed by", "Written by",
    "Original air date", "US viewers (millions)"],
   ["1", "1", "Pilot", "D", "W", "1999-01-10", "10.6[a]"]]

/-- A page whose first table is front matter and whose second table is the
season-one episode table. -/
def goodPage : List (List (List String)) :=
  [[["front matter"]], goodTable]

/-- An environment serving the well-formed page for the first configured
show and failing every other fetch. -/
def envW : Env := fun u =>
  if u = wikiUrl "The_Sopranos" then .ok goodPage else .error "network unreachable"

/-- The raw record scraped from the episode row of `goodTable`. -/
def recW : Record :=
  { overallNumber := some (.vStr "1"), noInSeason := some (.vStr "1"),
    title := some (.vStr "Pilot"), directedBy := some (.vStr "D"),
    writtenBy := some (.vStr "W"), originalAirDate := some (.vStr "1999-01-10"),
    usViewers := some (.vStr "10.6[a]"), season := some (.vInt 1),
    showId := some (.vStr "The_Sopranos") }

/-- The cleaned form of `recW`. -/
def cleanW : CleanRecord :=
  { showId := some "The Sopranos", overallNumber := 1, season := 1, noInSeason := 1,
    title := some (.vStr "Pilot"), directedBy := some (.vStr "D"),
    writtenBy := some (.vStr "W"), originalAirDate := some (DateVal.ymd 1999 1 10),
    usViewers := some (mkRat 106 10) }

/-- A raw record whose scraped viewership text is a negative number. -/
def recNeg : Record :=
  { overallNumber := some (.vStr "1"), noInSeason := some (.vStr "1"),
    title := some (.vStr "Pilot"), directedBy := some (.vStr "D"),
    writtenBy := some (.vStr "W"), originalAirDate := some (.vStr "1999-01-10"),
    usViewers := some (.vStr "-3.5"), season := some (.vInt 1),
    showId := some (.vStr "The_Sopranos") }

/-- The cleaned form of `recNeg`: the viewership field is negative. -/
def cleanNeg : CleanRecord :=
  { showId := some "The Sopranos", overallNumber := 1, season := 1, noInSeason := 1,
    title := some (.vStr "Pilot"), directedBy := some (.vStr "D"),
    writtenBy := some (.vStr "W"), originalAirDate := some (DateVal.ymd 1999 1 10),
    usViewers := some (mkRat (-7) 2) }

/-- A page whose episode row carries non-numeric text in the Overall number
column. -/
def badPage : List (List (List String)) :=
  [[["front matter"]],
   [["No. overall", "No. in season", "Title", "Directed by", "Written by",
     "Original air date", "US viewers (millions)"],
    ["x", "1", "Pilot", "D", "W", "1999-01-10", "10.6"]]]

/-- An environment serving the bad page for the first configured show. -/
def envBad : Env := fun u =>
  if u = wikiUrl "The_Sopranos" then .ok badPage else .error "network unreachable"

/-- A page whose season table holds one complete episode row and one short
row of five cells (no air date, no viewership). -/
def shortPage : List (List (List String)) :=
  [[["front matter"]],
   [["No. overall", "No. in season", "Title", "Directed by", "Written by",
     "Original air date", "US viewers (millions)"],
    ["1", "1", "Pilot", "D", "W", "2022-12-18", "10.6"],
    ["2", "2", "Second", "D", "W"]]]

/-- An environment serving the short-row page for a show whose identifier
is itself numeric text. -/
def envShort : Env := fun u =>
  if u = wikiUrl "1923" then .ok shortPage else .error "network unreachable"

/-- A page whose episode row carries the NaT sentinel text in the Original
air date column. -/
def natPage : List (List (List String)) :=
  [[["front matter"]],
   [["No. overall", "No. in season", "Title", "Directed by", "Written by",
     "Original air date", "US viewers (millions)"],
    ["1", "1", "Pilot", "D", "W", "NaT", "10.6[a]"]]]

/-- An environment serving the NaT-dated page for the first configured
show. -/
def envNat : Env := fun u =>
  if u = wikiUrl "The_Sopranos" then .ok natPage else .error "network unreachable"

/-- The cleaned form of the NaT-dated row: its Original air date is
null. -/
def cleanNat : CleanRecord :=
  { showId := some "The Sopranos", overallNumber := 1, season := 1, noInSeason := 1,
    title := some (.vStr "Pilot"), directedBy := some (.vStr "D"),
    writtenBy := some (.vStr "W"), originalAirDate := none,
    usViewers := some (mkRat 106 10) }

theorem mapE_ok_all {α β : Type} {f : α → Except String β} :
    ∀ {l : List α} {out : List β}, mapE f l = .ok out → ∀ x ∈ l, isErr (f x) = false := by
  intro l
  induction l with
  | nil => intro out _ x hx; cases hx
  | cons a as ih =>
    intro out h x hx
    unfold mapE at h
    cases hfa : f a with
    | error e => rw [hfa] at h; exact Except.noConfusion h
    | ok y =>
      rw [hfa] at h
      cases hrest : mapE f as with
      | error e => rw [hrest] at h; exact Except.noConfusion h
      | ok ys =>
        rcases List.mem_cons.mp hx with rfl | hx'
        · rw [hfa]; rfl
        · exact ih hrest x hx'

theorem mapE_mem {α β : Type} {f : α → Except String β} :
    ∀ {l : List α} {out : List β}, mapE f l = .ok out → ∀ y ∈ out, ∃ x ∈ l, f x = .ok y := by
  intro l
  induction l with
  | nil =>
    intro out h y hy
    unfold mapE at h
    injection h with h'
    subst h'
    cases hy
  | cons a as ih =>
    intro out h y hy
    unfold mapE at h
    cases hfa : f a with
    | error e => rw [hfa] at h; exact Except.noConfusion h
    | ok z =>
      rw [hfa] at h
      cases hrest : mapE f as with
      | error e => rw [hrest] at h; exact Except.noConfusion h
      | ok ys =>
        rw [hrest] at h
        injection h with h'
        subst h'
        rcases List.mem_cons.mp hy with rfl | hy'
        · exact ⟨a, List.mem_cons_self a as, hfa⟩
        · obtain ⟨x, hx, hfx⟩ := ih hrest y hy'
          exact ⟨x, List.mem_cons_of_mem a hx, hfx⟩

theorem mapE_ne_ok {α β : Type} {f : α → Except String β} {l : List α} {x : α}
    (hx : x ∈ l) (hb : isErr (f x) = true) (out : List β) : mapE f l ≠ .ok out := by
  intro hok
  have := mapE_ok_all hok x hx
  rw [hb] at this
  cases this

theorem scrape_foldl_eq (env : Env) (showId : String) :
    ∀ (seasons : List Nat) (acc : List Record),
      (∀ r ∈ acc, r.originalAirDate.isSome = true) →
      seasons.foldl (fun df season =>
        match seasonAttempt env showId season with
        | .error _ => df
        | .ok df1 => (df ++ df1).filter (fun r => r.originalAirDate.isSome)) acc =
      acc ++ (seasons.map (seasonContributionSpec env showId)).flatten := by
  intro seasons
  induction seasons with
  | nil => intro acc _; simp
  | cons n ns ih =>
    intro acc hacc
    simp only [List.foldl_cons, List.map_cons, List.flatten_cons]
    cases hA : seasonAttempt env showId n with
    | error e =>
      have hspec : seasonContributionSpec env showId n = [] := by
        unfold seasonContributionSpec; rw [hA]
      exact (ih acc hacc).trans (by rw [hspec]; simp)
    | ok rs =>
      have hspec : seasonContributionSpec env showId n =
          rs.filter (fun r => r.originalAirDate.isSome) := by
        unfold seasonContributionSpec; rw [hA]
      have hacc2 : ∀ r ∈ (acc ++ rs).filter (fun r => r.originalAirDate.isSome),
          r.originalAirDate.isSome = true := fun r hr => (List.mem_filter.mp hr).2
      exact (ih ((acc ++ rs).filter (fun r => r.originalAirDate.isSome)) hacc2).trans (by
        rw [List.filter_append, List.filter_eq_self.mpr hacc, hspec, List.append_assoc])

theorem scrape_eq_flatten (env : Env) (showId : String) (seasons : List Nat) :
    scrape_show_data env showId seasons =
      (seasons.map (seasonContributionSpec env showId)).flatten := by
  unfold scrape_show_data
  rw [scrape_foldl_eq env showId seasons [] (by intro r hr; cases hr)]
  simp

theorem scrape_mem_airdate (env : Env) (showId : String) (seasons : List Nat) :
    ∀ r ∈ scrape_show_data env showId seasons, r.originalAirDate.isSome = true := by
  intro r hr
  rw [scrape_eq_flatten] at hr
  rw [List.mem_flatten] at hr
  obtain ⟨l, hl, hrl⟩ := hr
  rw [List.mem_map] at hl
  obtain ⟨n, _, rfl⟩ := hl
  unfold seasonContributionSpec at hrl
  cases hA : seasonAttempt env showId n with
  | error e =>
    rw [hA] at hrl
    have hrl' : r ∈ ([] : List Record) := hrl
    cases hrl'
  | ok rs =>
    rw [hA] at hrl
    have hrl' : r ∈ rs.filter (fun r => r.originalAirDate.isSome) := hrl
    exact (List.mem_filter.mp hrl').2

theorem mainScraped_airdate (env : Env) :
    ∀ r ∈ mainScraped env, r.originalAirDate.isSome = true := by
  intro r hr
  unfold mainScraped at hr
  rw [List.mem_flatten] at hr
  obtain ⟨l, hl, hrl⟩ := hr
  rw [List.mem_map] at hl
  obtain ⟨p, _, rfl⟩ := hl
  exact scrape_mem_airdate env p.1 p.2 r hrl

/-- C1: on any exception raised inside a per-season attempt (a failed
fetch, a missing table index, an over-long row), scrape_show_data keeps the
accumulated frame unchanged and continues with the next season; the
returned table is exactly the concatenation, in season order, of the
air-dated rows of every season whose attempt did not raise, so one failing
season never aborts the show or the run. The progress and error printing
of lines 87 and 93 is console output with no data effect and is not
modelled. -/
theorem scrape_show_data_skips_failed_seasons (env : Env) (showId : String)
    (seasons : List Nat) :
    scrape_show_data env showId seasons =
      (seasons.map (seasonContributionSpec env showId)).flatten :=
  scrape_eq_flatten env showId seasons

theorem foldl_extract_eq_filterMap (showId : String) (season : Nat) :
    ∀ (rows : List (List String)) (acc : List (List RVal)),
      rows.foldl (fun results row =>
        match extractRowPy showId season row with
        | none => results
        | some row_data => results ++ [row_data]) acc =
      acc ++ rows.filterMap (extractRowPy showId season) := by
  intro rows
  induction rows with
  | nil => intro acc; simp
  | cons row rest ih =>
    intro acc
    simp only [List.foldl_cons, List.filterMap_cons]
    cases hE : extractRowPy showId season row with
    | none => exact ih acc
    | some d => exact (ih (acc ++ [d])).trans (by simp)

/-- C7: when the fetch succeeds and the page has a table at the season
index, get_tv_show_viewers selects exactly that table and returns, in page
order, every row that yields at least one non-empty stripped cell text,
each mapped to its non-empty stripped cell texts followed by the season
index and then the show identifier; rows yielding no non-empty cells are
dropped, and the header row is treated like any other row. -/
theorem get_tv_show_viewers_rows (env : Env) (showId : String) (season : Nat)
    (tables : List (List (List String))) (t : List (List String))
    (h1 : env (wikiUrl showId) = .ok tables) (h2 : tables[season]? = some t) :
    get_tv_show_viewers env showId season =
      .ok (t.filterMap (extractRowPy showId season)) := by
  simp only [get_tv_show_viewers, h1, h2]
  rw [foldl_extract_eq_filterMap showId season t []]
  simp

/-- Witness for C7: on a concrete two-table page, the extractor keeps the
header and episode rows of the second table, appending the season index and
show identifier to each. -/
theorem get_tv_show_viewers_rows_witness :
    get_tv_show_viewers envW "The_Sopranos" 1 =
      .ok [[.vStr "No. overall", .vStr "No. in season", .vStr "Title",
            .vStr "Directed by", .vStr "Written by", .vStr "Original air date",
            .vStr "US viewers (millions)", .vInt 1, .vStr "The_Sopranos"],
           [.vStr "1", .vStr "1", .vStr "Pilot", .vStr "D", .vStr "W",
            .vStr "1999-01-10", .vStr "10.6[a]", .vInt 1, .vStr "The_Sopranos"]] :=
  (get_tv_show_viewers_rows envW "The_Sopranos" 1 goodPage goodTable rfl rfl).trans
    (by decide)

theorem clean_ok_last {df : List Record} {out : List CleanRecord}
    (h : clean_and_save_data df = .ok out) :
    mapE cleanRecordTyped (cleanSteps df) = .ok out := by
  unfold clean_and_save_data at h
  cases h1 : mapE (fun r => astypeInt r.overallNumber) (cleanSteps df) with
  | error e => rw [h1] at h; exact Except.noConfusion h
  | ok a1 =>
    rw [h1] at h
    cases h2 : mapE (fun r => astypeInt r.season) (cleanSteps df) with
    | error e => rw [h2] at h; exact Except.noConfusion h
    | ok a2 =>
      rw [h2] at h
      cases h3 : mapE (fun r => astypeInt r.noInSeason) (cleanSteps df) with
      | error e => rw [h3] at h; exact Except.noConfusion h
      | ok a3 =>
        rw [h3] at h
        cases h4 : mapE (fun r => astypeFloat r.usViewers) (cleanSteps df) with
        | error e => rw [h4] at h; exact Except.noConfusion h
        | ok a4 =>
          rw [h4] at h
          cases h5 : mapE (fun r => to_datetime r.originalAirDate) (cleanSteps df) with
          | error e => rw [h5] at h; exact Except.noConfusion h
          | ok a5 => rw [h5] at h; exact h

theorem cleanSteps_mem {df : List Record} {r3 : Record} (h : r3 ∈ cleanSteps df) :
    ∃ r ∈ df, step120 (step119 (step118 r)) = r3 := by
  unfold cleanSteps at h
  rw [List.mem_map] at h
  obtain ⟨b, hb, rfl⟩ := h
  rw [List.mem_map] at hb
  obtain ⟨c, hc, rfl⟩ := hb
  rw [List.mem_map] at hc
  obtain ⟨r, hr, rfl⟩ := hc
  exact ⟨r, hr, rfl⟩

theorem clean_ok_mem {df : List Record} {out : List CleanRecord}
    (h : clean_and_save_data df = .ok out) :
    ∀ c ∈ out, ∃ r ∈ df, cleanRecordTyped (step120 (step119 (step118 r))) = .ok c := by
  intro c hc
  obtain ⟨r3, hr3, hok⟩ := mapE_mem (clean_ok_last h) c hc
  obtain ⟨r, hr, rfl⟩ := cleanSteps_mem hr3
  exact ⟨r, hr, hok⟩

theorem cleanRecordTyped_fields {r : Record} {c : CleanRecord}
    (h : cleanRecordTyped r = .ok c) :
    c.showId = optStrOf r.showId ∧ astypeFloat r.usViewers = .ok c.usViewers ∧
    to_datetime r.originalAirDate = .ok c.originalAirDate := by
  unfold cleanRecordTyped at h
  cases h1 : astypeInt r.overallNumber with
  | error e => rw [h1] at h; exact Except.noConfusion h
  | ok ov =>
    rw [h1] at h
    cases h2 : astypeInt r.season with
    | error e => rw [h2] at h; exact Except.noConfusion h
    | ok se =>
      rw [h2] at h
      cases h3 : astypeInt r.noInSeason with
      | error e => rw [h3] at h; exact Except.noConfusion h
      | ok ns =>
        rw [h3] at h
        cases h4 : astypeFloat r.usViewers with
        | error e => rw [h4] at h; exact Except.noConfusion h
        | ok uv =>
          rw [h4] at h
          cases h5 : to_datetime r.originalAirDate with
          | error e => rw [h5] at h; exact Except.noConfusion h
          | ok ad =>
            rw [h5] at h
            injection h with h'
            subst h'
            exact ⟨rfl, rfl, rfl⟩

theorem to_datetime_some {v : RVal} {ad : Option DateVal}
    (hns : natAirDateSentinel (some v) = false)
    (h : to_datetime (some v) = .ok ad) : ad ≠ none := by
  cases v with
  | vInt n =>
    injection h with h'
    subst h'
    simp
  | vStr s =>
    have hmem : ¬ s ∈ natStrings := of_decide_eq_false hns
    simp only [to_datetime] at h
    rw [if_neg hmem] at h
    cases hp : parseDate s with
    | error e =>
      rw [hp] at h
      exact Except.noConfusion h
    | ok d =>
      rw [hp] at h
      injection h with h'
      subst h'
      simp

/-- Counterexample for C4: the scraped air-date text NaT is a non-empty
string, so the row passes the notna filter of the show aggregator, and
pd.to_datetime then converts it to NaT without raising — the pipeline
succeeds and the canonical table holds a row whose Original air date is
null. -/
theorem pipeline_airdate_null_counterexample :
    main_pipeline envNat = .ok ([cleanNat], save_aggregated_data [cleanNat]) ∧
    cleanNat.originalAirDate = none :=
  ⟨rfl, rfl⟩

/-- C4 (amended): every row of the canonical table descends from a scraped
row whose air-date cell is present — rows missing an air date were dropped
by the Show Aggregator before cleaning — its cleaned Original air date is
the to_datetime image of that cell, and it is non-null whenever the raw
cell is not one of the pandas NaT sentinel strings; a scraped sentinel
such as NaT survives the notna filter and cleans to a null date without
raising. -/
theorem pipeline_airdate_nonnull_amended (env : Env)
    (out : List CleanRecord ×
      (List (String × Option ℚ) × List ((String × Int) × Option ℚ) ×
       List (String × Option ℚ) × List (String × Option ℚ)))
    (h : main_pipeline env = .ok out) :
    (∀ r ∈ mainScraped env, r.originalAirDate.isSome = true) ∧
    (∀ c ∈ out.1, ∃ r ∈ mainScraped env, r.originalAirDate.isSome = true ∧
      to_datetime r.originalAirDate = .ok c.originalAirDate ∧
      (natAirDateSentinel r.originalAirDate = false → c.originalAirDate ≠ none)) := by
  refine ⟨mainScraped_airdate env, ?_⟩
  have hclean : clean_and_save_data (mainScraped env) = .ok out.1 := by
    unfold main_pipeline at h
    cases hc : clean_and_save_data (mainScraped env) with
    | error e => rw [hc] at h; exact Except.noConfusion h
    | ok df =>
      rw [hc] at h
      injection h with h'
      rw [← h']
  intro c hc
  obtain ⟨r, hr, hok⟩ := clean_ok_mem hclean c hc
  have hsome : r.originalAirDate.isSome = true := mainScraped_airdate env r hr
  have hair : to_datetime r.originalAirDate = .ok c.originalAirDate :=
    (cleanRecordTyped_fields hok).2.2
  refine ⟨r, hr, hsome, hair, ?_⟩
  intro hns
  cases hv : r.originalAirDate with
  | none => rw [hv] at hsome; cases hsome
  | some v =>
    rw [hv] at hair
    rw [hv] at hns
    exact to_datetime_some hns hair

/-- Witness for C4: on a concrete environment where the pipeline succeeds,
the cleaned row descends from a scraped row with a present, non-sentinel
air-date cell and carries a non-null date. -/
theorem pipeline_airdate_nonnull_amended_witness :
    ∃ r ∈ mainScraped envW, r.originalAirDate.isSome = true ∧
      to_datetime r.originalAirDate = .ok cleanW.originalAirDate ∧
      (natAirDateSentinel r.originalAirDate = false → cleanW.originalAirDate ≠ none) :=
  (pipeline_airdate_nonnull_amended envW ([cleanW], save_aggregated_data [cleanW])
    rfl).2 cleanW (by decide)

/-- C2: whenever clean_and_save_data returns a table, the CSV artifact it
writes has exactly the nine canonical columns, in the order fixed at line
117, and every data row carries exactly nine fields in that order. -/
theorem clean_and_save_data_canonical_columns (df : List Record)
    (out : List CleanRecord) (h : clean_and_save_data df = .ok out) :
    (canonicalCsv out).1 = ["Show", "Overall number", "Season", "No in Season",
      "Title", "Directed by", "Written by", "Original air date",
      "US viewers (millions)"] ∧
    ∀ row ∈ (canonicalCsv out).2, row.length = 9 := by
  refine ⟨rfl, ?_⟩
  intro row hrow
  have hrow' : row ∈ out.map cleanRow := hrow
  obtain ⟨c, _, rfl⟩ := List.mem_map.mp hrow'
  rfl

/-- Witness for C2: the canonical CSV of a concrete successful cleaning run
has the nine canonical columns and a nine-field row. -/
theorem clean_and_save_data_canonical_columns_witness :
    (canonicalCsv [cleanW]).1 = ["Show", "Overall number", "Season", "No in Season",
      "Title", "Directed by", "Written by", "Original air date",
      "US viewers (millions)"] ∧ (cleanRow cleanW).length = 9 :=
  ⟨(clean_and_save_data_canonical_columns [recW] [cleanW] (by decide)).1,
   (clean_and_save_data_canonical_columns [recW] [cleanW] (by decide)).2
     (cleanRow cleanW) (by decide)⟩

theorem optStrOf_underscore {cell : Cell} {s : String}
    (h : optStrOf (underscoreReplaceCell cell) = some s) : ¬ '_' ∈ s.data := by
  cases cell with
  | none => exact Option.noConfusion h
  | some v =>
    cases v with
    | vInt n => exact Option.noConfusion h
    | vStr s0 =>
      injection h with h'
      subst h'
      intro hmem
      obtain ⟨c, _, hc⟩ := List.mem_map.mp hmem
      by_cases h0 : c = '_'
      · rw [if_pos h0] at hc
        exact absurd hc (by decide)
      · rw [if_neg h0] at hc
        exact h0 hc

/-- C9: every Show value of the canonical table is free of underscores:
the Cleaner replaces each underscore of the configured show identifier by a
space before the table is written. -/
theorem clean_show_no_underscore (df : List Record) (out : List CleanRecord)
    (h : clean_and_save_data df = .ok out) :
    ∀ c ∈ out, ∀ s, c.showId = some s → ¬ '_' ∈ s.data := by
  intro c hc s hs
  obtain ⟨r, hr, hok⟩ := clean_ok_mem h c hc
  have hshow : c.showId = optStrOf (underscoreReplaceCell r.showId) :=
    (cleanRecordTyped_fields hok).1
  rw [hs] at hshow
  exact optStrOf_underscore hshow.symm

/-- Witness for C9: cleaning a concrete record whose show identifier is
The_Sopranos yields the underscore-free value The Sopranos. -/
theorem clean_show_no_underscore_witness : ¬ '_' ∈ "The Sopranos".data :=
  clean_show_no_underscore [recW] [cleanW] (by decide) cleanW (by decide)
    "The Sopranos" rfl

/-- C3: the Cleaner viewership transform maps the raw text 10.6[a] to the
float 10.6 (here the exact rational 106/10), maps the sentinel N/A to null,
and raises on 3,27[1][2] because 3,27 does not parse as a float once the
bracketed markers are stripped. -/
theorem viewers_transform_scenario :
    viewersTransform (some (.vStr "10.6[a]")) = .ok (some (mkRat 106 10)) ∧
    viewersTransform (some (.vStr "N/A")) = .ok none ∧
    ∃ e, viewersTransform (some (.vStr "3,27[1][2]")) = .error e :=
  ⟨rfl, rfl, "could not convert string to float: 3,27", rfl⟩

/-- C10: a scraped five-cell row is padded by the Season Frame Builder, so
its Season and Show columns are null while its Original air date column
holds the shifted season tag; the row therefore survives the air-date
filter (the aggregator keeps both rows of the season), and the run then
dies in the Cleaner, where the integer coercion of the null Season value
raises even though every value in the integer-coerced columns that is
present is numeric. -/
theorem short_row_padded_survives_then_fatal :
    (scrape_show_data envShort "1923" [1]).length = 2 ∧
    (∃ r ∈ scrape_show_data envShort "1923" [1],
      r.season = none ∧ r.showId = none ∧ r.originalAirDate.isSome = true) ∧
    (∃ r ∈ cleanSteps (scrape_show_data envShort "1923" [1]),
      r.season = none ∧ isErr (astypeInt r.season) = true) ∧
    isErr (clean_and_save_data (scrape_show_data envShort "1923" [1])) = true :=
  ⟨by decide, by decide, by decide, by decide⟩

theorem main_pipeline_isErr {env : Env}
    (h : isErr (clean_and_save_data (mainScraped env)) = true) :
    isErr (main_pipeline env) = true := by
  unfold main_pipeline
  cases hc : clean_and_save_data (mainScraped env) with
  | error e => rfl
  | ok df =>
    rw [hc] at h
    exact Bool.noConfusion h

theorem clean_isErr_of_badInt {df : List Record}
    (h : ∃ r ∈ cleanSteps df, isErr (astypeInt r.overallNumber) = true ∨
      isErr (astypeInt r.season) = true ∨ isErr (astypeInt r.noInSeason) = true) :
    isErr (clean_and_save_data df) = true := by
  obtain ⟨r, hr, hbad⟩ := h
  unfold clean_and_save_data
  cases h1 : mapE (fun r => astypeInt r.overallNumber) (cleanSteps df) with
  | error e => rfl
  | ok a1 =>
    rcases hbad with hb | hb | hb
    · exact absurd h1 (mapE_ne_ok hr hb a1)
    · cases h2 : mapE (fun r => astypeInt r.season) (cleanSteps df) with
      | error e => rfl
      | ok a2 => exact absurd h2 (mapE_ne_ok hr hb a2)
    · cases h2 : mapE (fun r => astypeInt r.season) (cleanSteps df) with
      | error e => rfl
      | ok a2 =>
        cases h3 : mapE (fun r => astypeInt r.noInSeason) (cleanSteps df) with
        | error e => rfl
        | ok a3 => exact absurd h3 (mapE_ne_ok hr hb a3)

/-- C6: if any value of the Overall number, Season or No in Season column
is non-numeric after the pure cleaning steps, clean_and_save_data raises,
and because nothing in main catches an error raised after scraping, the
error propagates out of main and ends the run. -/
theorem clean_int_coercion_error_fatal (env : Env)
    (h : ∃ r ∈ cleanSteps (mainScraped env),
      isErr (astypeInt r.overallNumber) = true ∨ isErr (astypeInt r.season) = true ∨
      isErr (astypeInt r.noInSeason) = true) :
    isErr (clean_and_save_data (mainScraped env)) = true ∧
    isErr (main_pipeline env) = true := by
  have hc := clean_isErr_of_badInt h
  exact ⟨hc, main_pipeline_isErr hc⟩

/-- Witness for C6: an environment whose page carries the non-numeric
Overall number value x makes the cleaning step and the whole pipeline
raise. -/
theorem clean_int_coercion_error_fatal_witness :
    isErr (clean_and_save_data (mainScraped envBad)) = true ∧
    isErr (main_pipeline envBad) = true :=
  clean_int_coercion_error_fatal envBad (by decide)

theorem mem_pyStrip {x : Char} {l : List Char} (h : x ∈ pyStrip l) : x ∈ l := by
  unfold pyStrip at h
  rw [List.mem_reverse] at h
  have h2 := (List.dropWhile_sublist _).subset h
  rw [List.mem_reverse] at h2
  exact (List.dropWhile_sublist _).subset h2

theorem dropBracket_mem : ∀ {l r : List Char}, dropBracket l = some r →
    ∀ {x : Char}, x ∈ r → x ∈ l := by
  intro l
  induction l with
  | nil => intro r h; simp [dropBracket] at h
  | cons c cs ih =>
    intro r h x hx
    unfold dropBracket at h
    by_cases hc : c = ']'
    · rw [if_pos hc] at h
      injection h with h'
      subst h'
      exact List.mem_cons_of_mem _ hx
    · rw [if_neg hc] at h
      by_cases hn : c = '\n'
      · rw [if_pos hn] at h; exact Option.noConfusion h
      · rw [if_neg hn] at h
        exact List.mem_cons_of_mem _ (ih h hx)

theorem stripBracketsAux_mem : ∀ (fuel : Nat) {l : List Char} {x : Char},
    x ∈ stripBracketsAux fuel l → x ∈ l := by
  intro fuel
  induction fuel with
  | zero => intro l x h; exact h
  | succ fuel ih =>
    intro l x h
    cases l with
    | nil => simp [stripBracketsAux] at h
    | cons c rest =>
      unfold stripBracketsAux at h
      by_cases hc : c = '['
      · rw [if_pos hc] at h
        cases hdb : dropBracket rest with
        | some r =>
          rw [hdb] at h
          have h' : x ∈ stripBracketsAux fuel r := h
          exact List.mem_cons_of_mem _ (dropBracket_mem hdb (ih h'))
        | none =>
          rw [hdb] at h
          have h' : x ∈ c :: stripBracketsAux fuel rest := h
          rcases List.mem_cons.mp h' with rfl | h2
          · exact List.mem_cons_self _ _
          · exact List.mem_cons_of_mem _ (ih h2)
      · rw [if_neg hc] at h
        rcases List.mem_cons.mp h with rfl | h2
        · exact List.mem_cons_self _ _
        · exact List.mem_cons_of_mem _ (ih h2)

theorem mkRat_natCast_nonneg (n d : Nat) : 0 ≤ mkRat (n : Int) d :=
  Rat.mkRat_nonneg (Int.natCast_nonneg n) d

theorem parseSignedFloat_nonneg {t : List Char} (hm : ¬ '-' ∈ t) {q : ℚ}
    (h : parseSignedFloat t = some q) : 0 ≤ q := by
  cases t with
  | nil => exact Option.noConfusion h
  | cons c r =>
    simp only [parseSignedFloat] at h
    by_cases hp : c = '+'
    · rw [if_pos hp] at h
      obtain ⟨p, _, rfl⟩ := Option.map_eq_some'.mp h
      exact mkRat_natCast_nonneg p.1 p.2
    · rw [if_neg hp] at h
      by_cases hmn : c = '-'
      · subst hmn
        exact absurd (List.mem_cons_self _ _) hm
      · rw [if_neg hmn] at h
        obtain ⟨p, _, rfl⟩ := Option.map_eq_some'.mp h
        exact mkRat_natCast_nonneg p.1 p.2

theorem parseFloat_nonneg {s : String} (hm : ¬ '-' ∈ s.data) {q : ℚ}
    (h : parseFloat s = .ok q) : 0 ≤ q := by
  unfold parseFloat at h
  cases hps : parseSignedFloat (pyStrip s.data) with
  | none => rw [hps] at h; exact Except.noConfusion h
  | some q' =>
    rw [hps] at h
    injection h with h'
    subst h'
    exact parseSignedFloat_nonneg (fun hc => hm (mem_pyStrip hc)) hps

theorem viewersTransform_eq_of_clean {df : List Record} {out : List CleanRecord}
    (h : clean_and_save_data df = .ok out) :
    ∀ c ∈ out, ∃ r ∈ df, viewersTransform r.usViewers = .ok c.usViewers := by
  intro c hc
  obtain ⟨r, hr, hok⟩ := clean_ok_mem h c hc
  refine ⟨r, hr, ?_⟩
  have hfl : astypeFloat (step120 (step119 (step118 r))).usViewers = .ok c.usViewers :=
    (cleanRecordTyped_fields hok).2.1
  exact hfl

theorem viewersTransform_nonneg {cell : Cell} (hm : noMinusCell cell = true) {q : ℚ}
    (h : viewersTransform cell = .ok (some q)) : 0 ≤ q := by
  cases cell with
  | none =>
    injection h with h'
    exact Option.noConfusion h'
  | some v =>
    cases v with
    | vInt n =>
      injection h with h'
      exact Option.noConfusion h'
    | vStr s =>
      have hs : ¬ '-' ∈ s.data := of_decide_eq_true hm
      have hs2 : ¬ '-' ∈ (stripBracketsStr s).data :=
        fun hc => hs (stripBracketsAux_mem _ hc)
      have h2 : astypeFloat (naReplaceCell (some (.vStr (stripBracketsStr s)))) =
          .ok (some q) := h
      by_cases hna : stripBracketsStr s = "N/A"
      · rw [hna] at h2
        injection h2 with h'
        exact Option.noConfusion h'
      · have hred : naReplaceCell (some (.vStr (stripBracketsStr s))) =
            some (.vStr (stripBracketsStr s)) := by
          simp only [naReplaceCell]
          rw [if_neg hna]
        rw [hred] at h2
        cases hpf : parseFloat (stripBracketsStr s) with
        | error e =>
          have h3 : astypeFloat (some (.vStr (stripBracketsStr s))) = .error e := by
            simp only [astypeFloat, hpf]
          rw [h3] at h2
          exact Except.noConfusion h2
        | ok q' =>
          have h3 : astypeFloat (some (.vStr (stripBracketsStr s))) = .ok (some q') := by
            simp only [astypeFloat, hpf]
          rw [h3] at h2
          injection h2 with h'
          injection h' with h''
          subst h''
          exact parseFloat_nonneg hs2 hpf

/-- Counterexample for C5: cleaning a record whose raw viewership text is
-3.5 succeeds and yields a negative float in the canonical table, so the
non-negativity part of the claim fails: no step of the Cleaner checks the
sign of the parsed value. -/
theorem clean_viewers_negative_counterexample :
    clean_and_save_data [recNeg] = .ok [cleanNeg] ∧
    cleanNeg.usViewers = some (mkRat (-7) 2) ∧ mkRat (-7) 2 < 0 :=
  ⟨by decide, rfl, by decide⟩

/-- C5 (amended): every US viewers value of the canonical table is either
null or exactly the float parse of the bracket-stripped, N/A-normalized raw
text — so citation markers never leak into the numeric value, and raw text
12.3[4] normalizes to 12.3 — and the value is non-negative whenever the raw
cell holds no minus sign. -/
theorem clean_viewers_float_characterization :
    viewersTransform (some (.vStr "12.3[4]")) = .ok (some (mkRat 123 10)) ∧
    ∀ (df : List Record) (out : List CleanRecord),
      clean_and_save_data df = .ok out → ∀ c ∈ out, ∃ r ∈ df,
        viewersTransform r.usViewers = .ok c.usViewers ∧
        (noMinusCell r.usViewers = true → ∀ q, c.usViewers = some q → 0 ≤ q) := by
  refine ⟨rfl, ?_⟩
  intro df out h c hc
  obtain ⟨r, hr, hveq⟩ := viewersTransform_eq_of_clean h c hc
  refine ⟨r, hr, hveq, ?_⟩
  intro hm q hq
  rw [hq] at hveq
  exact viewersTransform_nonneg hm hveq

/-- Witness for C5: the concrete record with raw text 10.6[a] cleans to the
non-negative float 10.6. -/
theorem clean_viewers_float_characterization_witness :
    ∃ r ∈ [recW], viewersTransform r.usViewers = .ok cleanW.usViewers ∧
      (noMinusCell r.usViewers = true → ∀ q, cleanW.usViewers = some q → 0 ≤ q) :=
  clean_viewers_float_characterization.2 [recW] [cleanW] (by decide) cleanW (by decide)

theorem mem_insertSorted {κ : Type} {le : κ → κ → Bool} {x a : κ} :
    ∀ {l : List κ}, a ∈ insertSorted le x l ↔ a = x ∨ a ∈ l := by
  intro l
  induction l with
  | nil => simp [insertSorted]
  | cons y ys ih =>
    unfold insertSorted
    by_cases h : le x y = true
    · rw [if_pos h]
      simp [List.mem_cons]
    · rw [if_neg h]
      simp only [List.mem_cons, ih]
      tauto

theorem mem_sortKeys {κ : Type} {le : κ → κ → Bool} :
    ∀ {l : List κ} {a : κ}, a ∈ sortKeys le l ↔ a ∈ l := by
  intro l
  induction l with
  | nil => intro a; simp [sortKeys]
  | cons x xs ih =>
    intro a
    unfold sortKeys
    rw [mem_insertSorted]
    rw [ih]
    simp [List.mem_cons]

theorem mem_groupTable {κ : Type} [DecidableEq κ] {keyOf : CleanRecord → Option κ}
    {le : κ → κ → Bool} {agg : List ℚ → Option ℚ} {df : List CleanRecord}
    {k : κ} {v : Option ℚ} :
    (k, v) ∈ groupTable keyOf le agg df ↔
      ((∃ r ∈ df, keyOf r = some k) ∧
       v = agg ((df.filter (fun r => decide (keyOf r = some k))).filterMap
         (fun r => r.usViewers))) := by
  unfold groupTable
  rw [List.mem_map]
  constructor
  · rintro ⟨k', hk', heq⟩
    have hk2 : k' = k := congrArg Prod.fst heq
    subst hk2
    have hv2 : v = agg ((df.filter (fun r => decide (keyOf r = some k'))).filterMap
        (fun r => r.usViewers)) := (congrArg Prod.snd heq).symm
    refine ⟨?_, hv2⟩
    have hmem := mem_sortKeys.mp hk'
    rw [List.mem_dedup, List.mem_filterMap] at hmem
    obtain ⟨r, hrdf, hkr⟩ := hmem
    exact ⟨r, hrdf, hkr⟩
  · rintro ⟨⟨r, hrdf, hkr⟩, rfl⟩
    refine ⟨k, ?_, rfl⟩
    rw [mem_sortKeys, List.mem_dedup, List.mem_filterMap]
    exact ⟨r, hrdf, hkr⟩

/-- C8: the Aggregation Writer is a pure function of the canonical table, so
re-running it on an unchanged table yields identical artifacts; and each of
the four artifacts is characterized as the grouped statistic over exactly
the non-null viewership values of each group (rows whose key is null are
excluded by groupby): mean by show, mean by show and season, max by show,
min by show. -/
theorem save_aggregated_data_pure_grouping (df : List CleanRecord) :
    save_aggregated_data df = save_aggregated_data df ∧
    (∀ (k : String) (v : Option ℚ), (k, v) ∈ (save_aggregated_data df).1 ↔
      ((∃ r ∈ df, r.showId = some k) ∧
       v = meanAgg ((df.filter (fun r => decide (r.showId = some k))).filterMap
         (fun r => r.usViewers)))) ∧
    (∀ (k : String × Int) (v : Option ℚ), (k, v) ∈ (save_aggregated_data df).2.1 ↔
      ((∃ r ∈ df, r.showId.map (fun s => (s, r.season)) = some k) ∧
       v = meanAgg ((df.filter (fun r =>
         decide (r.showId.map (fun s => (s, r.season)) = some k))).filterMap
         (fun r => r.usViewers)))) ∧
    (∀ (k : String) (v : Option ℚ), (k, v) ∈ (save_aggregated_data df).2.2.1 ↔
      ((∃ r ∈ df, r.showId = some k) ∧
       v = maxAgg ((df.filter (fun r => decide (r.showId = some k))).filterMap
         (fun r => r.usViewers)))) ∧
    (∀ (k : String) (v : Option ℚ), (k, v) ∈ (save_aggregated_data df).2.2.2 ↔
      ((∃ r ∈ df, r.showId = some k) ∧
       v = minAgg ((df.filter (fun r => decide (r.showId = some k))).filterMap
         (fun r => r.usViewers)))) :=
  ⟨rfl, fun k v => mem_groupTable, fun k v => mem_groupTable,
   fun k v => mem_groupTable, fun k v => mem_groupTable⟩
